import Mathlib

/-!
Verification of the session-layout subsystem of the kazeterm terminal
application: the split-pane tree of one tab (`SplitPane`, `SplitContainer`,
from `crates/kazeterm/src/components/split_pane.rs`) and the tab list of the
main window (`crates/kazeterm/src/components/main_window_tab_management.rs`,
`main_window_render.rs`, `tab_rename_dialog.rs`).

The Rust code mutates `&mut self` in place; here every operation is a pure
function returning the new value of `self` together with the Rust return
value.  GUI-only data (rendering handles, subscriptions, focus, the shell
profile strings) is dropped; a terminal entity is modelled by the two fields
the layout logic reads: its stable `index` handle and its title text.
-/

namespace Kazeterm

/-- `PaneId(pub usize)` from split_pane.rs. -/
abbrev PaneId := Nat

/-- The two split orientations. -/
inductive SplitDirection where
  | Horizontal
  | Vertical
deriving DecidableEq, Repr

/-- Model of `Entity<TerminalView>` restricted to what the layout logic
reads: `terminal.read(cx).index` (the stable terminal handle) and the title
text reached through `terminal().read(cx).title_text`. -/
structure TerminalView where
  index : Nat
  title_text : String
deriving DecidableEq, Repr

/-- `enum SplitPane`: a leaf terminal pane or a binary split.  The f32 size
field (0.0 to 1.0, the first pane's share) is modelled as a rational; the
code only ever writes the exact value 0.5 into it. -/
inductive SplitPane where
  | Terminal (id : PaneId) (terminal : TerminalView)
  | Split (direction : SplitDirection) (first second : SplitPane) ( ratio : ℚ)
deriving DecidableEq, Repr

/-- `struct ClosePaneResult`. -/
structure ClosePaneResult where
  replacement : Option SplitPane
  closed : Bool
deriving DecidableEq, Repr

namespace SplitPane

/-- The guard of the immediate-child patterns in `close_pane`:
`SplitPane::Terminal { id, .. } if *id == pane_id`. -/
def is_terminal_with_id : SplitPane → PaneId → Bool
  | .Terminal id _, pane_id => id == pane_id
  | .Split _ _ _ _, _ => false

/-- `SplitPane::split`.  Returns the new value of `self` (the Rust method
mutates in place) together with the `bool` result.  A matching leaf is
replaced by a split whose first child is the old leaf and whose second child
is a fresh leaf with id `next_id`, ratio 0.5; otherwise the children are
tried left to right with the short-circuiting `||`. -/
def split : SplitPane → PaneId → SplitDirection → TerminalView → PaneId →
    SplitPane × Bool
  | .Terminal id terminal, pane_id, direction, new_terminal, next_id =>
    if id = pane_id then
      (.Split direction (.Terminal id terminal) (.Terminal next_id new_terminal)
        (1/2 : ℚ), true)
    else
      (.Terminal id terminal, false)
  | .Split d first second r, pane_id, direction, new_terminal, next_id =>
    let first_res := first.split pane_id direction new_terminal next_id
    if first_res.2 then
      (.Split d first_res.1 second r, true)
    else
      let second_res := second.split pane_id direction new_terminal next_id
      (.Split d first_res.1 second_res.1 r, second_res.2)

/-- `SplitPane::close_pane`.  Returns the new value of `self` together with
the `ClosePaneResult`.  Literal translation: the immediate-child check, then
recursion into the first subtree, then the second; a recursive result with
`closed` and `replacement = Some` is spliced over that child and reported as
`{replacement: None, closed: true}`; a recursive result with `closed` and
`replacement = None` makes this level return the *other* child as
replacement. -/
def close_pane : SplitPane → PaneId → SplitPane × ClosePaneResult
  | .Terminal id terminal, pane_id =>
    if id = pane_id then
      (.Terminal id terminal, { replacement := none, closed := true })
    else
      (.Terminal id terminal, { replacement := none, closed := false })
  | .Split d first second r, pane_id =>
    if first.is_terminal_with_id pane_id then
      (.Split d first second r, { replacement := some second, closed := true })
    else if second.is_terminal_with_id pane_id then
      (.Split d first second r, { replacement := some first, closed := true })
    else
      let first_result := first.close_pane pane_id
      if first_result.2.closed then
        match first_result.2.replacement with
        | some new_first =>
          (.Split d new_first second r, { replacement := none, closed := true })
        | none =>
          (.Split d first_result.1 second r,
           { replacement := some second, closed := true })
      else
        let second_result := second.close_pane pane_id
        if second_result.2.closed then
          match second_result.2.replacement with
          | some new_second =>
            (.Split d first_result.1 new_second r,
             { replacement := none, closed := true })
          | none =>
            (.Split d first_result.1 second_result.1 r,
             { replacement := some first_result.1, closed := true })
        else
          (.Split d first_result.1 second_result.1 r,
           { replacement := none, closed := false })

/-- `SplitPane::find_pane_by_terminal_index`. -/
def find_pane_by_terminal_index : SplitPane → Nat → Option PaneId
  | .Terminal id terminal, terminal_index =>
    if terminal.index = terminal_index then some id else none
  | .Split _ first second _, terminal_index =>
    (first.find_pane_by_terminal_index terminal_index).orElse
      (fun _ => second.find_pane_by_terminal_index terminal_index)

/-- `SplitPane::find_terminal`. -/
def find_terminal : SplitPane → PaneId → Option TerminalView
  | .Terminal id terminal, pane_id => if id = pane_id then some terminal else none
  | .Split _ first second _, pane_id =>
    (first.find_terminal pane_id).orElse (fun _ => second.find_terminal pane_id)

/-- `SplitPane::all_terminals` (pre-order, left to right). -/
def all_terminals : SplitPane → List (PaneId × TerminalView)
  | .Terminal id terminal => [(id, terminal)]
  | .Split _ first second _ => first.all_terminals ++ second.all_terminals

/-- `SplitPane::count_panes`. -/
def count_panes : SplitPane → Nat
  | .Terminal _ _ => 1
  | .Split _ first second _ => first.count_panes + second.count_panes

/-- A leaf with this id is present in the tree. -/
def pane_exists (p : SplitPane) (pane_id : PaneId) : Bool :=
  (p.find_terminal pane_id).isSome

/-- What every caller of `close_pane` does with the result (see
`close_active_pane` / `close_pane_by_terminal_index`): when a replacement is
returned it is installed as the new root, otherwise the (mutated) tree
itself is kept. -/
def root_after_close (p : SplitPane) (pane_id : PaneId) : SplitPane :=
  let res := p.close_pane pane_id
  match res.2.replacement with
  | some new_root => new_root
  | none => res.1

end SplitPane

/-- `struct SplitContainer`: one tab's pane tree. -/
structure SplitContainer where
  root : SplitPane
  active_pane_id : Option PaneId
  next_pane_id : Nat
deriving DecidableEq, Repr

namespace SplitContainer

/-- `SplitContainer::new`. -/
def new (terminal : TerminalView) : SplitContainer :=
  { root := .Terminal 0 terminal, active_pane_id := some 0, next_pane_id := 1 }

/-- `SplitContainer::split_active_pane`.  Returns the new container and the
`Option<PaneId>` result. -/
def split_active_pane (c : SplitContainer) (direction : SplitDirection)
    (new_terminal : TerminalView) : SplitContainer × Option PaneId :=
  match c.active_pane_id with
  | some active_id =>
    let new_id : PaneId := c.next_pane_id
    let res := c.root.split active_id direction new_terminal new_id
    if res.2 then
      ({ root := res.1, active_pane_id := some new_id,
         next_pane_id := c.next_pane_id + 1 }, some new_id)
    else
      ({ c with root := res.1 }, none)
  | none => (c, none)

/-- `SplitContainer::close_active_pane`.  Refuses when `count_panes() <= 1`;
otherwise closes the active pane, installs a returned replacement as the new
root, and repairs the active id to the first pre-order leaf when it no
longer resolves. -/
def close_active_pane (c : SplitContainer) : SplitContainer × Bool :=
  match c.active_pane_id with
  | some active_id =>
    if c.root.count_panes ≤ 1 then
      (c, false)
    else
      let res := c.root.close_pane active_id
      let root1 := match res.2.replacement with
        | some new_root => new_root
        | none => res.1
      if res.2.closed then
        if c.active_pane_id == some active_id
            && (root1.find_terminal active_id).isNone then
          ({ c with root := root1,
                    active_pane_id := (root1.all_terminals).head?.map Prod.fst },
           true)
        else
          ({ c with root := root1 }, true)
      else
        ({ c with root := root1 }, false)
  | none => (c, false)

/-- `SplitContainer::close_pane_by_terminal_index`: resolves the pane id by
terminal handle, then the same surgery; the repair also fires when the
active id (whatever it is) no longer resolves. -/
def close_pane_by_terminal_index (c : SplitContainer) (terminal_index : Nat) :
    SplitContainer × Bool :=
  match c.root.find_pane_by_terminal_index terminal_index with
  | some pane_id =>
    if c.root.count_panes ≤ 1 then
      (c, false)
    else
      let res := c.root.close_pane pane_id
      let root1 := match res.2.replacement with
        | some new_root => new_root
        | none => res.1
      if res.2.closed then
        if c.active_pane_id == some pane_id
            || c.active_pane_id.any (fun active => (root1.find_terminal active).isNone) then
          ({ c with root := root1,
                    active_pane_id := (root1.all_terminals).head?.map Prod.fst },
           true)
        else
          ({ c with root := root1 }, true)
      else
        ({ c with root := root1 }, false)
  | none => (c, false)

/-- `SplitContainer::get_active_terminal`. -/
def get_active_terminal (c : SplitContainer) : Option TerminalView :=
  c.active_pane_id.bind (fun id => c.root.find_terminal id)

/-- `SplitContainer::set_active_pane`: only accepts an id that resolves. -/
def set_active_pane (c : SplitContainer) (pane_id : PaneId) : SplitContainer :=
  if (c.root.find_terminal pane_id).isSome then
    { c with active_pane_id := some pane_id }
  else
    c

/-- `SplitContainer::all_terminals`. -/
def all_terminals (c : SplitContainer) : List (PaneId × TerminalView) :=
  c.root.all_terminals

/-- The container's core invariant (spec §3, invariant 2): the active pane
id resolves to a leaf present in the current tree. -/
def active_resolves (c : SplitContainer) : Bool :=
  c.active_pane_id.any (fun id => (c.root.find_terminal id).isSome)

end SplitContainer

/-- `struct TabItem` (main_window_tab_item.rs) restricted to the fields the
layout logic reads: the stable tab id `index`, the auto-derived `title`, the
user override `custom_title` and the pane tree. -/
structure TabItem where
  index : Nat
  title : String
  custom_title : Option String
  split_container : SplitContainer
deriving DecidableEq, Repr

/-- `TabItem::display_title`: the custom title if set, else the auto title. -/
def TabItem.display_title (item : TabItem) : String :=
  item.custom_title.getD item.title

/-- `TabRenameDialog::confirm` (tab_rename_dialog.rs): an empty or
all-whitespace input is normalized to `None`, anything else to `Some`. -/
def confirm_new_title (value : String) : Option String :=
  if value.trim.isEmpty then none else some value

/-- `MainWindow::on_rename_dialog_event` applied to the matching tab
(main_window_dialog_handlers.rs): the event's title becomes the override. -/
def TabItem.apply_rename (item : TabItem) (new_title : Option String) : TabItem :=
  { item with custom_title := new_title }

/-- The `UpdateTab` branch of `MainWindow::subscribe_terminal_view_event`
applied to the matching tab: skipped entirely while a custom title is set,
otherwise the auto title is overwritten when it changed. -/
def TabItem.apply_update_tab (item : TabItem) (new_title : String) : TabItem :=
  if item.custom_title.isSome then
    item
  else if item.title ≠ new_title then
    { item with title := new_title }
  else
    item

/-- The session state of `MainWindow` relevant to tab management: the
ordered tab list and the active tab position. -/
structure MainWindow where
  items : List TabItem
  active_tab_ix : Option Nat
deriving DecidableEq, Repr

namespace MainWindow

/-- `MainWindow::remove_tab_by` (main_window_tab_management.rs).  Looks the
tab up by stable id, removes it, and recomputes the active position.  When
no tabs remain the configured policy applies: `close_on_last_tab` models
`config.close_on_last_tab` (the returned flag means the window was removed)
and `fresh_tab` models the tab `insert_new_tab` would create (pushed, and
the active position set to the new last index). -/
def remove_tab_by (w : MainWindow) (close_on_last_tab : Bool)
    (fresh_tab : TabItem) (tab_index : Nat) : MainWindow × Bool :=
  match w.items.findIdx? (fun item => item.index == tab_index) with
  | some pos =>
    let items1 := w.items.eraseIdx pos
    if items1.isEmpty then
      if close_on_last_tab then
        ({ items := items1, active_tab_ix := w.active_tab_ix }, true)
      else
        ({ items := items1 ++ [fresh_tab],
           active_tab_ix := some (items1 ++ [fresh_tab]).length.pred }, false)
    else
      let new_active_ix :=
        match w.active_tab_ix with
        | some active_ix =>
          if active_ix = pos then
            min pos (items1.length - 1)
          else if active_ix > pos then
            active_ix - 1
          else
            active_ix
        | none => 0
      ({ items := items1, active_tab_ix := some new_active_ix }, false)
  | none => (w, false)

/-- The `on_drop` handler for a dragged tab (main_window_render.rs): remove
the tab at `from_ix`, reinsert it at `to_ix`, and rebase the active
position by the three-way rule.  (In the GUI `from_ix` always indexes an
existing tab; `Vec::remove` would panic otherwise, hence the guard.) -/
def move_tab (w : MainWindow) (from_ix to_ix : Nat) : MainWindow :=
  if from_ix ≠ to_ix then
    match w.items[from_ix]? with
    | some item =>
      let items1 := w.items.eraseIdx from_ix
      let insert_ix := if from_ix < to_ix then to_ix else to_ix
      let items2 := items1.insertIdx insert_ix item
      let active1 :=
        match w.active_tab_ix with
        | some active =>
          if active = from_ix then some insert_ix
          else if from_ix < active ∧ active ≤ to_ix then some (active - 1)
          else if to_ix ≤ active ∧ active < from_ix then some (active + 1)
          else some active
        | none => none
      { items := items2, active_tab_ix := active1 }
    | none => w
  else
    w

/-- The `CloseTerminal` branch of `MainWindow::subscribe_terminal_view_event`
(main_window_tab_management.rs): find the tab owning terminal handle
`terminal_index`, try the pane-level close, and when that refuses (last
pane) remove the whole tab by its stable id. -/
def handle_close_terminal (w : MainWindow) (close_on_last_tab : Bool)
    (fresh_tab : TabItem) (terminal_index : Nat) : MainWindow × Bool :=
  match w.items.findIdx? (fun item =>
      (item.split_container.all_terminals).any
        (fun pt => pt.2.index == terminal_index)) with
  | some tab_pos =>
    match w.items[tab_pos]? with
    | some item =>
      let tab_index := item.index
      let res := item.split_container.close_pane_by_terminal_index terminal_index
      let should_close_tab := !res.2
      let w1 : MainWindow :=
        { w with items := w.items.set tab_pos { item with split_container := res.1 } }
      if should_close_tab then
        w1.remove_tab_by close_on_last_tab fresh_tab tab_index
      else
        (w1, false)
    | none => (w, false)
  | none => (w, false)

end MainWindow

/-! ### Concrete fixtures used by the counterexample evaluations -/

/-- A terminal entity with handle `n`. -/
def tv (n : Nat) : TerminalView := ⟨n, ""⟩

/-- A leaf pane with id `n`, terminal handle `10 + n`. -/
def leaf (n : Nat) : SplitPane := .Terminal n (tv (10 + n))

/-- The 4-pane tree `Split(Leaf 0, Split(Leaf 1, Split(Leaf 2, Leaf 3)))`,
exactly what three successive splits of the active pane produce. -/
def tree4 : SplitPane :=
  .Split .Vertical (leaf 0)
    (.Split .Vertical (leaf 1)
      (.Split .Vertical (leaf 2) (leaf 3) (1/2 : ℚ)) (1/2 : ℚ)) (1/2 : ℚ)

/-- The middle subtree of `tree4`. -/
def tree4_mid : SplitPane :=
  .Split .Vertical (leaf 1)
    (.Split .Vertical (leaf 2) (leaf 3) (1/2 : ℚ)) (1/2 : ℚ)

/-- A 3-pane tree with a leaf (id 0) at depth 2. -/
def tree3 : SplitPane :=
  .Split .Vertical (.Split .Vertical (leaf 0) (leaf 1) (1/2 : ℚ)) (leaf 2)
    (1/2 : ℚ)

/-- A fresh default tab, standing in for what `insert_new_tab` creates. -/
def fresh_tab : TabItem :=
  { index := 99, title := "", custom_title := none,
    split_container := SplitContainer.new (tv 990) }

/-- A session holding one tab whose pane tree is `tree4`. -/
def session4 : MainWindow :=
  { items := [{ index := 7, title := "tab", custom_title := none,
                split_container :=
                  { root := tree4, active_pane_id := some 3, next_pane_id := 4 } }],
    active_tab_ix := some 0 }

/-- A two-pane container whose active id resolves. -/
def pair_container : SplitContainer :=
  { root := .Split .Vertical (leaf 0) (leaf 1) (1/2 : ℚ),
    active_pane_id := some 0, next_pane_id := 2 }

/-- A single-pane container. -/
def solo_container : SplitContainer := SplitContainer.new (tv 0)

/-- A container whose active id is stale (names no leaf of its tree). -/
def stale_container : SplitContainer :=
  { root := .Terminal 0 (tv 10), active_pane_id := some 5, next_pane_id := 6 }

/-- A tab without a custom title. -/
def plain_item : TabItem :=
  { index := 1, title := "auto", custom_title := none,
    split_container := solo_container }

/-- A tab with a custom title set. -/
def titled_item : TabItem :=
  { index := 2, title := "auto", custom_title := some "mine",
    split_container := solo_container }

/-- A three-tab session with the middle tab active. -/
def session3 : MainWindow :=
  { items := [{ plain_item with index := 11 }, { plain_item with index := 22 },
              { plain_item with index := 33 }],
    active_tab_ix := some 1 }

/-! ### Helper lemmas about the pane tree operations -/

/-- `orElse` of options is `some` iff either side is. -/
theorem isSome_orElse {α : Type} (a : Option α) (f : Unit → Option α) :
    (a.orElse f).isSome = (a.isSome || (f ()).isSome) := by
  cases a <;> simp [Option.orElse]

/-- `orElse` of options is `none` iff both sides are. -/
theorem orElse_eq_none {α : Type} (a : Option α) (f : Unit → Option α) :
    (a.orElse f) = none ↔ a = none ∧ f () = none := by
  cases a <;> simp [Option.orElse]

namespace SplitPane

/-- Every pane tree has at least one leaf. -/
theorem count_panes_pos (p : SplitPane) : 1 ≤ p.count_panes := by
  induction p with
  | Terminal id terminal => simp [count_panes]
  | Split d f s r ihf ihs => simp only [count_panes]; omega

/-- A failed `split` leaves the tree unchanged. -/
theorem split_eq_self_of_failed (p : SplitPane) (pane_id : PaneId)
    (d : SplitDirection) (t : TerminalView) (n : PaneId)
    (h : (p.split pane_id d t n).2 = false) : (p.split pane_id d t n).1 = p := by
  induction p with
  | Terminal id terminal =>
    by_cases hid : id = pane_id <;> simp [split, hid] at h ⊢
  | Split dd f s r ihf ihs =>
    simp only [split] at h ⊢
    cases hf : (f.split pane_id d t n).2 with
    | true => simp [hf] at h
    | false =>
      cases hs : (s.split pane_id d t n).2 with
      | true => simp [hf, hs] at h
      | false => simp [hf, hs, ihf hf, ihs hs]

/-- `split` fails (and changes nothing) when the target id names no leaf. -/
theorem split_eq_of_find_none (p : SplitPane) (pane_id : PaneId)
    (d : SplitDirection) (t : TerminalView) (n : PaneId)
    (h : p.find_terminal pane_id = none) : p.split pane_id d t n = (p, false) := by
  induction p with
  | Terminal id terminal =>
    have hid : ¬ id = pane_id := by
      intro hc; simp [find_terminal, hc] at h
    simp [split, hid]
  | Split dd f s r ihf ihs =>
    simp only [find_terminal, orElse_eq_none] at h
    simp [split, ihf h.1, ihs h.2]

/-- After a successful `split` targeting any leaf, the freshly allocated id
resolves in the resulting tree. -/
theorem find_some_of_split_succeeded (p : SplitPane) (pane_id : PaneId)
    (d : SplitDirection) (t : TerminalView) (n : PaneId)
    (h : (p.split pane_id d t n).2 = true) :
    ((p.split pane_id d t n).1.find_terminal n).isSome = true := by
  induction p with
  | Terminal id terminal =>
    by_cases hid : id = pane_id
    · by_cases hidn : id = n <;>
        simp [split, hid, find_terminal, hidn, isSome_orElse]
    · simp [split, hid] at h
  | Split dd f s r ihf ihs =>
    simp only [split] at h ⊢
    cases hf : (f.split pane_id d t n).2 with
    | true => simp [hf, find_terminal, isSome_orElse, ihf hf]
    | false =>
      simp only [hf, if_false, Bool.false_eq_true] at h ⊢
      simp [find_terminal, isSome_orElse, ihs h]

/-- A `close_pane` call that reports `closed = false` changes nothing and
returns no replacement. -/
theorem close_pane_not_closed (p : SplitPane) (pane_id : PaneId)
    (h : (p.close_pane pane_id).2.closed = false) :
    p.close_pane pane_id = (p, { replacement := none, closed := false }) := by
  induction p with
  | Terminal id terminal =>
    by_cases hid : id = pane_id <;> simp [close_pane, hid] at h ⊢
  | Split dd f s r ihf ihs =>
    simp only [close_pane] at h ⊢
    by_cases h1 : f.is_terminal_with_id pane_id = true
    · simp [h1] at h
    · simp only [h1, Bool.false_eq_true, if_false] at h ⊢
      by_cases h2 : s.is_terminal_with_id pane_id = true
      · simp [h2] at h
      · simp only [h2, Bool.false_eq_true, if_false] at h ⊢
        cases hfc : (f.close_pane pane_id).2.closed with
        | true => simp [hfc] at h; cases hr : (f.close_pane pane_id).2.replacement <;>
            simp [hr] at h
        | false =>
          simp only [hfc, Bool.false_eq_true, if_false] at h ⊢
          cases hsc : (s.close_pane pane_id).2.closed with
          | true => simp [hsc] at h; cases hr : (s.close_pane pane_id).2.replacement <;>
              simp [hr] at h
          | false =>
            simp only [hsc, Bool.false_eq_true, if_false] at h ⊢
            rw [ihf hfc, ihs hsc]

/-- The first pre-order leaf: `all_terminals` starts with a pair whose pane
id resolves in the tree. -/
theorem head_all_terminals_finds (p : SplitPane) :
    ∃ pt rest, p.all_terminals = pt :: rest ∧ (p.find_terminal pt.1).isSome = true := by
  induction p with
  | Terminal id terminal =>
    exact ⟨(id, terminal), [], by simp [all_terminals], by simp [find_terminal]⟩
  | Split dd f s r ihf ihs =>
    obtain ⟨pt, rest, hl, hfind⟩ := ihf
    exact ⟨pt, rest ++ s.all_terminals, by simp [all_terminals, hl],
      by simp [find_terminal, isSome_orElse, hfind]⟩

end SplitPane

end Kazeterm
namespace Kazeterm
namespace SplitContainer

theorem split_active_pane_resolves (c : SplitContainer) (a : PaneId)
    (h1 : c.active_pane_id = some a) (h2 : (c.root.find_terminal a).isSome = true)
    (d : SplitDirection) (t : TerminalView) :
    (c.split_active_pane d t).1.active_resolves = true := by
  simp only [split_active_pane, h1]
  cases hs : (c.root.split a d t c.next_pane_id).2 with
  | true =>
    simp [hs, active_resolves, Option.any,
      SplitPane.find_some_of_split_succeeded _ _ _ _ _ hs]
  | false =>
    simp [hs, active_resolves, h1, Option.any,
      SplitPane.split_eq_self_of_failed _ _ _ _ _ hs, h2]

theorem close_active_pane_resolves (c : SplitContainer) (a : PaneId)
    (h1 : c.active_pane_id = some a) (h2 : (c.root.find_terminal a).isSome = true) :
    (c.close_active_pane).1.active_resolves = true := by
  simp only [close_active_pane, h1]
  by_cases hcp : c.root.count_panes ≤ 1
  · simp [hcp, active_resolves, h1, Option.any, h2]
  · simp only [hcp, if_false]
    cases hcl : (c.root.close_pane a).2.closed with
    | false =>
      rw [SplitPane.close_pane_not_closed _ _ hcl]
      simp [active_resolves, h1, Option.any, h2]
    | true =>
      cases hrep : (c.root.close_pane a).2.replacement with
      | some nr =>
        simp only [hrep, hcl, if_true]
        by_cases hN : (nr.find_terminal a).isNone = true
        · obtain ⟨pt, rest, hl, hfind⟩ := SplitPane.head_all_terminals_finds nr
          simp [h1, hN, active_resolves, Option.any, hl, hfind]
        · simp [h1, hN, active_resolves, Option.any]
          simp [Option.isNone_eq_false_iff, Option.isSome_iff_exists] at hN
          simp [Option.isSome_iff_exists]
          exact Option.ne_none_iff_exists'.mp hN
      | none =>
        simp only [hrep, hcl, if_true]
        by_cases hN : ((c.root.close_pane a).1.find_terminal a).isNone = true
        · obtain ⟨pt, rest, hl, hfind⟩ :=
            SplitPane.head_all_terminals_finds (c.root.close_pane a).1
          simp [h1, hN, active_resolves, Option.any, hl, hfind]
        · simp [h1, hN, active_resolves, Option.any]
          simp [Option.isNone_eq_false_iff, Option.isSome_iff_exists] at hN
          simp [Option.isSome_iff_exists]
          exact Option.ne_none_iff_exists'.mp hN

theorem close_by_terminal_index_resolves (c : SplitContainer) (a : PaneId)
    (h1 : c.active_pane_id = some a) (h2 : (c.root.find_terminal a).isSome = true)
    (ti : Nat) :
    (c.close_pane_by_terminal_index ti).1.active_resolves = true := by
  simp only [close_pane_by_terminal_index]
  cases hfp : c.root.find_pane_by_terminal_index ti with
  | none => simp [active_resolves, h1, Option.any, h2]
  | some pid =>
    by_cases hcp : c.root.count_panes ≤ 1
    · simp [hcp, active_resolves, h1, Option.any, h2]
    · simp only [hcp, if_false]
      cases hcl : (c.root.close_pane pid).2.closed with
      | false =>
        rw [SplitPane.close_pane_not_closed _ _ hcl]
        simp [active_resolves, h1, Option.any, h2]
      | true =>
        cases hrep : (c.root.close_pane pid).2.replacement with
        | some nr =>
          simp only [hrep, hcl, if_true]
          by_cases hN : (nr.find_terminal a).isNone = true
          · obtain ⟨pt, rest, hl, hfind⟩ := SplitPane.head_all_terminals_finds nr
            simp [h1, hN, active_resolves, Option.any, hl, hfind]
          · by_cases hpid : a = pid
            · obtain ⟨pt, rest, hl, hfind⟩ := SplitPane.head_all_terminals_finds nr
              simp [h1, hpid, active_resolves, Option.any, hl, hfind]
            · simp [h1, hN, hpid, active_resolves, Option.any]
              simp [Option.isNone_eq_false_iff, Option.isSome_iff_exists] at hN
              simp [Option.isSome_iff_exists]
              exact Option.ne_none_iff_exists'.mp hN
        | none =>
          simp only [hrep, hcl, if_true]
          by_cases hN : ((c.root.close_pane pid).1.find_terminal a).isNone = true
          · obtain ⟨pt, rest, hl, hfind⟩ :=
              SplitPane.head_all_terminals_finds (c.root.close_pane pid).1
            simp [h1, hN, active_resolves, Option.any, hl, hfind]
          · by_cases hpid : a = pid
            · obtain ⟨pt, rest, hl, hfind⟩ :=
                SplitPane.head_all_terminals_finds (c.root.close_pane pid).1
              simp [h1, hpid, active_resolves, Option.any, hl, hfind]
            · simp [h1, hN, hpid, active_resolves, Option.any]
              simp [Option.isNone_eq_false_iff, Option.isSome_iff_exists] at hN
              simp [Option.isSome_iff_exists]
              exact Option.ne_none_iff_exists'.mp hN

theorem set_active_pane_resolves (c : SplitContainer) (a : PaneId)
    (h1 : c.active_pane_id = some a) (h2 : (c.root.find_terminal a).isSome = true)
    (pid : PaneId) :
    (c.set_active_pane pid).active_resolves = true := by
  simp only [set_active_pane]
  by_cases hp : (c.root.find_terminal pid).isSome = true
  · simp [hp, active_resolves, Option.any]
  · simp [hp, active_resolves, h1, Option.any, h2]

theorem close_active_pane_repair (c : SplitContainer) (a : PaneId)
    (h1 : c.active_pane_id = some a) (h2 : (c.root.find_terminal a).isSome = true)
    (hN : (((c.close_active_pane).1.root).find_terminal a).isNone = true) :
    (c.close_active_pane).1.active_pane_id =
      ((c.close_active_pane).1.root.all_terminals).head?.map Prod.fst := by
  simp only [close_active_pane, h1] at hN ⊢
  obtain ⟨v, hv⟩ := Option.isSome_iff_exists.mp h2
  by_cases hcp : c.root.count_panes ≤ 1
  · simp [hcp, hv] at hN
  · simp only [hcp, if_false] at hN ⊢
    cases hcl : (c.root.close_pane a).2.closed with
    | false =>
      rw [SplitPane.close_pane_not_closed _ _ hcl] at hN ⊢
      simp [hv] at hN
    | true =>
      cases hrep : (c.root.close_pane a).2.replacement with
      | some nr =>
        simp only [hrep, hcl, if_true] at hN ⊢
        by_cases hfa : nr.find_terminal a = none
        · simp [hfa]
        · simp [hfa] at hN
      | none =>
        simp only [hrep, hcl, if_true] at hN ⊢
        by_cases hfa : (c.root.close_pane a).1.find_terminal a = none
        · simp [hfa]
        · simp [hfa] at hN

theorem close_by_terminal_index_repair (c : SplitContainer) (a : PaneId)
    (h1 : c.active_pane_id = some a) (h2 : (c.root.find_terminal a).isSome = true)
    (ti : Nat)
    (hN : (((c.close_pane_by_terminal_index ti).1.root).find_terminal a).isNone = true) :
    (c.close_pane_by_terminal_index ti).1.active_pane_id =
      ((c.close_pane_by_terminal_index ti).1.root.all_terminals).head?.map Prod.fst := by
  simp only [close_pane_by_terminal_index] at hN ⊢
  obtain ⟨v, hv⟩ := Option.isSome_iff_exists.mp h2
  cases hfp : c.root.find_pane_by_terminal_index ti with
  | none =>
    simp [hfp, hv] at hN
  | some pid =>
    simp only [hfp] at hN ⊢
    by_cases hcp : c.root.count_panes ≤ 1
    · simp [hcp, hv] at hN
    · simp only [hcp, if_false] at hN ⊢
      cases hcl : (c.root.close_pane pid).2.closed with
      | false =>
        rw [SplitPane.close_pane_not_closed _ _ hcl] at hN ⊢
        simp [hv] at hN
      | true =>
        cases hrep : (c.root.close_pane pid).2.replacement with
        | some nr =>
          simp only [hrep, hcl, if_true, h1] at hN ⊢
          by_cases hfa : nr.find_terminal a = none
          · simp [hfa]
          · by_cases hpid : a = pid <;> simp [hpid, hfa] at hN ⊢
        | none =>
          simp only [hrep, hcl, if_true, h1] at hN ⊢
          by_cases hfa : (c.root.close_pane pid).1.find_terminal a = none
          · simp [hfa]
          · by_cases hpid : a = pid <;> simp [hpid, hfa] at hN ⊢

theorem close_active_pane_result (c : SplitContainer) (a : PaneId)
    (h1 : c.active_pane_id = some a) :
    (c.close_active_pane).2 =
      (decide (1 < c.root.count_panes) && (c.root.close_pane a).2.closed) := by
  simp only [close_active_pane, h1]
  by_cases hcp : c.root.count_panes ≤ 1
  · have hlt : ¬ 1 < c.root.count_panes := by omega
    simp [hcp, hlt]
  · have hlt : 1 < c.root.count_panes := by omega
    cases hcl : (c.root.close_pane a).2.closed with
    | false => simp [hcp, hcl, hlt]
    | true =>
      cases hrep : (c.root.close_pane a).2.replacement with
      | some nr =>
        simp only [hcp, hcl, hrep, if_true, if_false]
        split_ifs <;> simp [hlt]
      | none =>
        simp only [hcp, hcl, hrep, if_true, if_false]
        split_ifs <;> simp [hlt]

end SplitContainer
end Kazeterm

/-! ### The claims -/

namespace Kazeterm

/-- C1: the claim says `close_pane(X)` (with the caller installing any
returned replacement as the new root) decreases `count_panes()` by exactly
one when a leaf `X` exists.  The code refutes it: in the 4-pane tree
`tree4`, leaf 2 exists, yet the close leaves a single pane — the recursion
reports a finished splice as `{replacement: None, closed: true}` and the
level above misreads that as "my child was the removed leaf" and promotes
the sibling, discarding live panes. -/
theorem C1_close_pane_count_bug :
    tree4.count_panes = 4 ∧
    tree4.pane_exists 2 = true ∧
    (tree4.root_after_close 2).count_panes = 1 := by decide

/-- C2: the claim says a recursive close result carrying a concrete
replacement is spliced in place of that child with no further structural
change above, and the subtree not containing the target survives intact.
The code refutes it: closing pane 2 in `tree4`, the middle split splices
the replacement `leaf 3` correctly (its own result is
`{replacement: none, closed: true}`), but the root then replaces itself by
its first child, destroying pane 1 which was in the subtree that had
already been handled — the final tree is just `leaf 0`. -/
theorem C2_close_pane_frame_bug :
    ((SplitPane.Split .Vertical (leaf 2) (leaf 3) (1/2 : ℚ)).close_pane 2).2 =
      ⟨some (leaf 3), true⟩ ∧
    (tree4_mid.close_pane 2).1 = .Split .Vertical (leaf 1) (leaf 3) (1/2 : ℚ) ∧
    (tree4_mid.close_pane 2).2 = ⟨none, true⟩ ∧
    tree4.root_after_close 2 = leaf 0 ∧
    tree4.pane_exists 1 = true ∧
    (tree4.root_after_close 2).pane_exists 1 = false :=
  ⟨rfl, rfl, rfl, rfl, rfl, rfl⟩

/-- C3: the claim says splitting a leaf and immediately closing the fresh
sibling restores the original tree.  The code refutes it when the split
leaf sits at depth 2: in `tree3`, splitting leaf 0 (new sibling id 3) and
then closing pane 3 collapses the whole tree to `leaf 2`, losing panes 0
and 1. -/
theorem C3_split_close_roundtrip_bug :
    tree3.pane_exists 0 = true ∧
    (tree3.split 0 .Vertical (tv 99) 3).2 = true ∧
    ((tree3.split 0 .Vertical (tv 99) 3).1.root_after_close 3) = leaf 2 ∧
    ((tree3.split 0 .Vertical (tv 99) 3).1.root_after_close 3) ≠ tree3 := by
  refine ⟨rfl, rfl, rfl, ?_⟩
  decide

/-- C4: for a container whose active id resolves to a leaf, after any of
`split_active_pane`, `close_active_pane`, `close_pane_by_terminal_index`,
`set_active_pane` the active id again resolves in the resulting tree; when
the previous active id no longer resolves after a close it is repaired to
the first pre-order leaf (the head of `all_terminals`); and the boolean a
close returns is a function of the pane count and the surgery result alone,
so the repair is never surfaced to the caller. -/
theorem C4_active_id_resolves_and_repairs (c : SplitContainer) (a : PaneId)
    (h1 : c.active_pane_id = some a)
    (h2 : (c.root.find_terminal a).isSome = true) :
    (∀ d t, (c.split_active_pane d t).1.active_resolves = true) ∧
    ((c.close_active_pane).1.active_resolves = true) ∧
    (∀ ti, (c.close_pane_by_terminal_index ti).1.active_resolves = true) ∧
    (∀ pid, (c.set_active_pane pid).active_resolves = true) ∧
    ((((c.close_active_pane).1.root).find_terminal a).isNone = true →
      (c.close_active_pane).1.active_pane_id =
        ((c.close_active_pane).1.root.all_terminals).head?.map Prod.fst) ∧
    (∀ ti,
      (((c.close_pane_by_terminal_index ti).1.root).find_terminal a).isNone = true →
      (c.close_pane_by_terminal_index ti).1.active_pane_id =
        ((c.close_pane_by_terminal_index ti).1.root.all_terminals).head?.map Prod.fst) ∧
    ((c.close_active_pane).2 =
      (decide (1 < c.root.count_panes) && (c.root.close_pane a).2.closed)) :=
  ⟨fun d t => SplitContainer.split_active_pane_resolves c a h1 h2 d t,
   SplitContainer.close_active_pane_resolves c a h1 h2,
   fun ti => SplitContainer.close_by_terminal_index_resolves c a h1 h2 ti,
   fun pid => SplitContainer.set_active_pane_resolves c a h1 h2 pid,
   fun hN => SplitContainer.close_active_pane_repair c a h1 h2 hN,
   fun ti hN => SplitContainer.close_by_terminal_index_repair c a h1 h2 ti hN,
   SplitContainer.close_active_pane_result c a h1⟩

/-- C4, instantiated at the two-pane container with active pane 0. -/
theorem C4_witness :
    (∀ d t, (pair_container.split_active_pane d t).1.active_resolves = true) ∧
    ((pair_container.close_active_pane).1.active_resolves = true) ∧
    (∀ ti, (pair_container.close_pane_by_terminal_index ti).1.active_resolves = true) ∧
    (∀ pid, (pair_container.set_active_pane pid).active_resolves = true) ∧
    ((((pair_container.close_active_pane).1.root).find_terminal 0).isNone = true →
      (pair_container.close_active_pane).1.active_pane_id =
        ((pair_container.close_active_pane).1.root.all_terminals).head?.map Prod.fst) ∧
    (∀ ti,
      (((pair_container.close_pane_by_terminal_index ti).1.root).find_terminal 0).isNone
          = true →
      (pair_container.close_pane_by_terminal_index ti).1.active_pane_id =
        ((pair_container.close_pane_by_terminal_index ti).1.root.all_terminals).head?.map
          Prod.fst) ∧
    ((pair_container.close_active_pane).2 =
      (decide (1 < pair_container.root.count_panes) &&
        (pair_container.root.close_pane 0).2.closed)) :=
  C4_active_id_resolves_and_repairs pair_container 0 rfl rfl

/-- C5: with a single leaf (`count_panes() ≤ 1`) both `close_active_pane`
and `close_pane_by_terminal_index` return `false` and leave the container
(root, active id, id allocator) completely unchanged, for every handle; and
a pane tree always holds at least one leaf. -/
theorem C5_last_pane_close_refused (c : SplitContainer)
    (h : c.root.count_panes ≤ 1) :
    c.close_active_pane = (c, false) ∧
    (∀ ti, c.close_pane_by_terminal_index ti = (c, false)) ∧
    1 ≤ c.root.count_panes := by
  refine ⟨?_, ?_, SplitPane.count_panes_pos c.root⟩
  · unfold SplitContainer.close_active_pane
    cases hA : c.active_pane_id <;> simp [h]
  · intro ti
    unfold SplitContainer.close_pane_by_terminal_index
    cases hF : c.root.find_pane_by_terminal_index ti <;> simp [h]

/-- C5, instantiated at the fresh single-pane container. -/
theorem C5_witness :
    solo_container.close_active_pane = (solo_container, false) ∧
    (∀ ti, solo_container.close_pane_by_terminal_index ti = (solo_container, false)) ∧
    1 ≤ solo_container.root.count_panes :=
  C5_last_pane_close_refused solo_container (by decide)

/-- C6: the claim says a `CloseTerminal(H)` notification closes exactly the
pane holding `H` when its tab has more than one leaf.  The code refutes it:
in `session4` (one tab, the 4-pane tree `tree4`, handle 12 owned by pane 2)
the handle resolves, the tab survives as claimed, but the surviving tab is
left with a single pane instead of three — the pane-level close discards
live subtrees. -/
theorem C6_close_terminal_notification_bug :
    (session4.items.map (fun item => item.split_container.root.count_panes)) = [4] ∧
    ((session4.items.head?.map (fun item =>
        (item.split_container.root.find_pane_by_terminal_index 12).isSome)) =
      some true) ∧
    (session4.handle_close_terminal false fresh_tab 12).1.items.length = 1 ∧
    ((session4.handle_close_terminal false fresh_tab 12).1.items.map
       (fun item => item.split_container.root.count_panes)) = [1] := by decide

/-- C7: removing a tab by stable id, found at position `P`, in a session
with active position `A` and at least one remaining tab: the remaining tabs
are exactly the original list with position `P` erased (order and ids
unchanged), and the new active position is `min P (new length - 1)` when
`A = P`, `A - 1` when `P < A`, and `A` when `P > A`; the window is not
removed. -/
theorem C7_remove_tab_rebases_active (w : MainWindow) (colt : Bool)
    (ft : TabItem) (tab_index A P : Nat)
    (hA : w.active_tab_ix = some A)
    (hP : w.items.findIdx? (fun item => item.index == tab_index) = some P)
    (hrem : 1 ≤ (w.items.eraseIdx P).length) :
    (w.remove_tab_by colt ft tab_index).1.items = w.items.eraseIdx P ∧
    (w.remove_tab_by colt ft tab_index).1.active_tab_ix =
      some (if A = P then min P ((w.items.eraseIdx P).length - 1)
            else if P < A then A - 1
            else A) ∧
    (w.remove_tab_by colt ft tab_index).2 = false := by
  have hne : (w.items.eraseIdx P).isEmpty = false := by
    rw [Bool.eq_false_iff]
    intro hc
    rw [List.isEmpty_iff_length_eq_zero] at hc
    omega
  simp only [MainWindow.remove_tab_by, hP, hne, hA]
  simp

/-- C7, instantiated at the three-tab session: removing the first tab
(id 11, position 0) while position 1 is active. -/
theorem C7_witness :
    (session3.remove_tab_by false fresh_tab 11).1.items = session3.items.eraseIdx 0 ∧
    (session3.remove_tab_by false fresh_tab 11).1.active_tab_ix =
      some (if 1 = 0 then min 0 ((session3.items.eraseIdx 0).length - 1)
            else if 0 < 1 then 1 - 1
            else 1) ∧
    (session3.remove_tab_by false fresh_tab 11).2 = false :=
  C7_remove_tab_rebases_active session3 false fresh_tab 11 1 0 rfl (by decide)
    (by decide)

/-- C8: moving a tab from position `f` to position `t` (both in range,
`f ≠ t`) puts that tab at position `t`, keeps all other tabs in their
relative order (erasing position `t` afterwards recovers the list with
position `f` erased), keeps the length, and rebases the active position `A`
by the three-way rule: `t` if `A = f`; `A - 1` if `f < A ≤ t`; `A + 1` if
`t ≤ A < f`; unchanged otherwise. -/
theorem C8_move_tab_reorders_and_rebases (w : MainWindow) (f t A : Nat)
    (hf : f < w.items.length) (ht : t < w.items.length) (hne : f ≠ t)
    (hA : w.active_tab_ix = some A) :
    (w.move_tab f t).items[t]? = w.items[f]? ∧
    (w.move_tab f t).items.eraseIdx t = w.items.eraseIdx f ∧
    (w.move_tab f t).items.length = w.items.length ∧
    (w.move_tab f t).active_tab_ix =
      some (if A = f then t
            else if f < A ∧ A ≤ t then A - 1
            else if t ≤ A ∧ A < f then A + 1
            else A) := by
  have hitem : w.items[f]? = some (w.items.get ⟨f, hf⟩) := List.getElem?_eq_getElem hf
  have hlen1 : (w.items.eraseIdx f).length = w.items.length - 1 :=
    List.length_eraseIdx_of_lt hf
  have htle : t ≤ (w.items.eraseIdx f).length := by omega
  simp only [MainWindow.move_tab, hne, hitem, hA, ite_self, if_true, ne_eq,
    not_false_eq_true]
  refine ⟨?_, ?_, ?_, ?_⟩
  · rw [List.getElem?_eq_getElem (by rw [List.length_insertIdx _ _ htle]; omega)]
    rw [List.getElem_insertIdx_self _ _ _ htle]
  · exact List.eraseIdx_insertIdx t (w.items.eraseIdx f)
  · rw [List.length_insertIdx _ _ htle]; omega
  · split_ifs <;> rfl

/-- C8, instantiated at the three-tab session: dragging the first tab to
the last position while position 1 is active. -/
theorem C8_witness :
    (session3.move_tab 0 2).items[2]? = session3.items[0]? ∧
    (session3.move_tab 0 2).items.eraseIdx 2 = session3.items.eraseIdx 0 ∧
    (session3.move_tab 0 2).items.length = session3.items.length ∧
    (session3.move_tab 0 2).active_tab_ix =
      some (if 1 = 0 then 2
            else if 0 < 1 ∧ 1 ≤ 2 then 1 - 1
            else if 2 ≤ 1 ∧ 1 < 0 then 1 + 1
            else 1) :=
  C8_move_tab_reorders_and_rebases session3 0 2 1 (by decide) (by decide)
    (by decide) rfl

/-- C9: renaming with `None` clears the override (the auto title is
displayed again); an input whose trimmed form is empty is normalized by the
dialog to `None` and so behaves exactly like clearing; any other input sets
the override; and while an override is set, an `UpdateTab` title
notification leaves the displayed title unchanged. -/
theorem C9_rename_title_semantics (item : TabItem) :
    ((item.apply_rename none).custom_title = none ∧
     (item.apply_rename none).display_title = item.title) ∧
    (∀ value : String, value.trim.isEmpty = true →
       item.apply_rename (confirm_new_title value) = item.apply_rename none) ∧
    (∀ value : String, value.trim.isEmpty = false →
       (item.apply_rename (confirm_new_title value)).custom_title = some value) ∧
    (item.custom_title.isSome = true →
       ∀ s, (item.apply_update_tab s).display_title = item.display_title) := by
  refine ⟨⟨rfl, by simp [TabItem.apply_rename, TabItem.display_title]⟩, ?_, ?_, ?_⟩
  · intro value hv
    simp [confirm_new_title, hv]
  · intro value hv
    simp [confirm_new_title, hv, TabItem.apply_rename]
  · intro hsome s
    simp [TabItem.apply_update_tab, hsome]

/-- C9, instantiated: an empty input behaves like clearing, a plain input
sets the override, and a title notification does not change the displayed
title of a tab with an override. -/
theorem C9_witness :
    plain_item.apply_rename (confirm_new_title "") = plain_item.apply_rename none ∧
    (plain_item.apply_rename (confirm_new_title "a")).custom_title = some "a" ∧
    (titled_item.apply_update_tab "other").display_title = titled_item.display_title :=
  ⟨(C9_rename_title_semantics plain_item).2.1 ""
     (by simp [String.trim, String.trimLeft, String.trimRight, Substring.trim,
           Substring.takeWhileAux, Substring.takeRightWhileAux, String.toSubstring,
           Substring.toString, String.isEmpty, String.extract]),
   (C9_rename_title_semantics plain_item).2.2.1 "a"
     (by show (("a".toSubstring.trim).toString.isEmpty) = false
         unfold Substring.trim
         unfold Substring.takeWhileAux Substring.takeRightWhileAux
         decide),
   (C9_rename_title_semantics titled_item).2.2.2 rfl "other"⟩

/-- C10: `split_active_pane` with no active id, or with an active id that
names no leaf of the current tree, returns `None` and leaves the container
(tree, active id, and id allocator) completely unchanged — a pane id is
consumed only by a successful split. -/
theorem C10_split_without_active_noop (c : SplitContainer)
    (d : SplitDirection) (t : TerminalView)
    (h : c.active_pane_id = none ∨
         ∃ a, c.active_pane_id = some a ∧ c.root.find_terminal a = none) :
    c.split_active_pane d t = (c, none) := by
  rcases h with h | ⟨a, h1, h2⟩
  · simp [SplitContainer.split_active_pane, h]
  · simp only [SplitContainer.split_active_pane, h1]
    rw [SplitPane.split_eq_of_find_none _ _ _ _ _ h2]
    simp only [Bool.false_eq_true, if_false, ← h1]

/-- C10, instantiated at a container with a stale active id. -/
theorem C10_witness :
    stale_container.split_active_pane .Vertical (tv 1) = (stale_container, none) :=
  C10_split_without_active_noop stale_container .Vertical (tv 1)
    (Or.inr ⟨5, rfl, rfl⟩)

end Kazeterm
